import Mathlib

/-!
Verification of the quality-control computation in Simulation_Case.py.

The script computes, from process parameters (target dimension, process mean,
process standard deviation, specification limits) and production parameters
(batch size, cost per unit, revenue per good unit), the defect statistics and
financial outcome of a simulated batch, the process capability indices, the
density-curve data for plotting, and an analytic (CDF-based) improvement
scenario with its return on investment.

The sampled-batch pipeline (lines 28 to 41 and 54 to 65) is embedded over the
rationals, with the simulated batch an explicit list argument in place of the
numpy random draw.  The analytic improvement pipeline (lines 124 to 137 and
151) is embedded over the reals, with the standard normal cumulative
distribution function modelled as the integral of the standard normal density.
-/

open MeasureTheory Set

/-- Line 28: `defects = np.sum((manufactured_parts < lower_spec) | (manufactured_parts > upper_spec))`.
The simulated batch is passed in as the list `parts`. -/
def defects (parts : List ℚ) (lower_spec upper_spec : ℚ) : ℕ :=
  parts.countP fun p => decide (p < lower_spec) || decide (upper_spec < p)

/-- Line 29: `defect_rate = defects / batch_size * 100`. -/
def defect_rate (parts : List ℚ) (batch_size : ℕ) (lower_spec upper_spec : ℚ) : ℚ :=
  (defects parts lower_spec upper_spec : ℚ) / (batch_size : ℚ) * 100

/-- Line 32: `total_manufacturing_cost = batch_size * cost_per_unit`. -/
def total_manufacturing_cost (batch_size : ℕ) (cost_per_unit : ℚ) : ℚ :=
  (batch_size : ℚ) * cost_per_unit

/-- Line 33: `good_parts = batch_size - defects` (Python integer subtraction). -/
def good_parts (parts : List ℚ) (batch_size : ℕ) (lower_spec upper_spec : ℚ) : ℤ :=
  (batch_size : ℤ) - (defects parts lower_spec upper_spec : ℤ)

/-- Line 34: `total_revenue = good_parts * revenue_per_unit`. -/
def total_revenue (parts : List ℚ) (batch_size : ℕ) (lower_spec upper_spec revenue_per_unit : ℚ) : ℚ :=
  (good_parts parts batch_size lower_spec upper_spec : ℚ) * revenue_per_unit

/-- Line 35: `profit = total_revenue - total_manufacturing_cost`. -/
def profit (parts : List ℚ) (batch_size : ℕ) (lower_spec upper_spec revenue_per_unit cost_per_unit : ℚ) : ℚ :=
  total_revenue parts batch_size lower_spec upper_spec revenue_per_unit -
    total_manufacturing_cost batch_size cost_per_unit

/-- Line 38: `cp = (upper_spec - lower_spec) / (6 * process_std)`. -/
def cp (process_std lower_spec upper_spec : ℚ) : ℚ :=
  (upper_spec - lower_spec) / (6 * process_std)

/-- Line 39: `cpu = (upper_spec - process_mean) / (3 * process_std)`. -/
def cpu (process_mean process_std upper_spec : ℚ) : ℚ :=
  (upper_spec - process_mean) / (3 * process_std)

/-- Line 40: `cpl = (process_mean - lower_spec) / (3 * process_std)`. -/
def cpl (process_mean process_std lower_spec : ℚ) : ℚ :=
  (process_mean - lower_spec) / (3 * process_std)

/-- Line 41: `cpk = min(cpu, cpl)`. -/
def cpk (process_mean process_std lower_spec upper_spec : ℚ) : ℚ :=
  min (cpu process_mean process_std upper_spec) (cpl process_mean process_std lower_spec)

/-- Bundle of the four capability indices of lines 38 to 41. -/
structure CapabilityIndices where
  cp : ℚ
  cpu : ℚ
  cpl : ℚ
  cpk : ℚ
deriving DecidableEq

/-- The two kinds of exception relevant to the script: the DomainError the
specification prescribes for invalid inputs, and the ZeroDivisionError that
Python float division actually raises when a denominator is zero. -/
inductive PyError where
  | domainError : PyError
  | zeroDivisionError : PyError
deriving DecidableEq

/-- Lines 38 to 41 as executed by Python: there is no input validation of any
kind, so the only possible failure is the ZeroDivisionError raised by float
division when `process_std = 0`; every other input, including a negative
standard deviation or `upper_spec <= lower_spec`, silently yields indices. -/
def capability_indices (process_mean process_std lower_spec upper_spec : ℚ) :
    Except PyError CapabilityIndices :=
  if process_std = 0 then .error .zeroDivisionError
  else .ok
    { cp := cp process_std lower_spec upper_spec
      cpu := cpu process_mean process_std upper_spec
      cpl := cpl process_mean process_std lower_spec
      cpk := cpk process_mean process_std lower_spec upper_spec }

/-- Line 47: `x = np.linspace(process_mean - 4*process_std, process_mean + 4*process_std, 1000)`;
numpy linspace with 1000 points places point `i` at `start + i * (stop - start) / 999`. -/
def x_curve (process_mean process_std : ℚ) : List ℚ :=
  (List.range 1000).map fun i =>
    (process_mean - 4 * process_std) +
      (i : ℚ) * ((process_mean + 4 * process_std) - (process_mean - 4 * process_std)) / 999

/-- Line 54: `in_spec_x = x[(x >= lower_spec) & (x <= upper_spec)]`. -/
def in_spec_x (process_mean process_std lower_spec upper_spec : ℚ) : List ℚ :=
  (x_curve process_mean process_std).filter fun p =>
    decide (lower_spec ≤ p) && decide (p ≤ upper_spec)

/-- Line 59: `lower_out_x = x[x < lower_spec]`. -/
def lower_out_x (process_mean process_std lower_spec : ℚ) : List ℚ :=
  (x_curve process_mean process_std).filter fun p => decide (p < lower_spec)

/-- Line 61: `upper_out_x = x[x > upper_spec]`. -/
def upper_out_x (process_mean process_std upper_spec : ℚ) : List ℚ :=
  (x_curve process_mean process_std).filter fun p => decide (upper_spec < p)

/-- Line 124: `improved_mean = target_dimension if centered_mean else process_mean`.
Generic in the number type so the same definition serves the rational
capability recomputation of line 151 and the real CDF pipeline of line 127. -/
def improved_mean {α : Type} (target_dimension process_mean : α) (centered_mean : Bool) : α :=
  if centered_mean then target_dimension else process_mean

/-- Line 151: the improved-process capability index shown in the second column,
`min((upper_spec - improved_mean) / (3 * improved_std), (improved_mean - lower_spec) / (3 * improved_std))`. -/
def cpk_improved (lower_spec upper_spec im improved_std : ℚ) : ℚ :=
  min ((upper_spec - im) / (3 * improved_std)) ((im - lower_spec) / (3 * improved_std))

/-- Density of the standard normal distribution, the model of `stats.norm.pdf`
at mean 0 and standard deviation 1. -/
noncomputable def normPdf (x : ℝ) : ℝ :=
  (Real.sqrt (2 * Real.pi))⁻¹ * Real.exp (-(x ^ 2 / 2))

/-- Cumulative distribution function of the standard normal distribution, the
model of `stats.norm.cdf`. -/
noncomputable def normCdf (z : ℝ) : ℝ :=
  ∫ x in Iic z, normPdf x

/-- Line 127: `z_lower_improved = (lower_spec - improved_mean) / improved_std`. -/
noncomputable def z_lower_improved (lower_spec im improved_std : ℝ) : ℝ :=
  (lower_spec - im) / improved_std

/-- Line 128: `z_upper_improved = (upper_spec - improved_mean) / improved_std`. -/
noncomputable def z_upper_improved (upper_spec im improved_std : ℝ) : ℝ :=
  (upper_spec - im) / improved_std

/-- Line 130: `defect_rate_improved = (1 - (stats.norm.cdf(z_upper_improved) - stats.norm.cdf(z_lower_improved))) * 100`. -/
noncomputable def defect_rate_improved (lower_spec upper_spec im improved_std : ℝ) : ℝ :=
  (1 - (normCdf (z_upper_improved upper_spec im improved_std) -
      normCdf (z_lower_improved lower_spec im improved_std))) * 100

/-- Line 131: `good_parts_improved = batch_size * (1 - defect_rate_improved/100)`. -/
noncomputable def good_parts_improved (batch_size : ℕ) (lower_spec upper_spec im improved_std : ℝ) : ℝ :=
  (batch_size : ℝ) * (1 - defect_rate_improved lower_spec upper_spec im improved_std / 100)

/-- Line 132: `total_revenue_improved = good_parts_improved * revenue_per_unit`. -/
noncomputable def total_revenue_improved (batch_size : ℕ)
    (lower_spec upper_spec im improved_std revenue_per_unit : ℝ) : ℝ :=
  good_parts_improved batch_size lower_spec upper_spec im improved_std * revenue_per_unit

/-- Line 136: `profit_improved = total_revenue_improved - total_manufacturing_cost - improvement_cost`,
taking the already-computed current total manufacturing cost as an argument. -/
noncomputable def profit_improved (batch_size : ℕ)
    (lower_spec upper_spec im improved_std revenue_per_unit tmc improvement_cost : ℝ) : ℝ :=
  total_revenue_improved batch_size lower_spec upper_spec im improved_std revenue_per_unit -
    tmc - improvement_cost

/-- Value of the return-on-investment computation: either an ordinary float or
the `float(*inf*)` marker produced when the investment is not positive. -/
inductive Roi where
  | finite (value : ℝ) : Roi
  | infinite : Roi

/-- Line 137: `roi = (profit_improved - profit) / improvement_cost * 100 if improvement_cost > 0 else float(*inf*)`,
as a function of the already-computed improved and current profits. -/
noncomputable def roi (profit_improved_v profit_v improvement_cost : ℝ) : Roi :=
  if 0 < improvement_cost then
    .finite ((profit_improved_v - profit_v) / improvement_cost * 100)
  else .infinite

lemma defect_pred_eq_not_in_spec (lower_spec upper_spec p : ℚ) :
    (decide (p < lower_spec) || decide (upper_spec < p)) = true ↔
      (decide ¬(lower_spec ≤ p ∧ p ≤ upper_spec)) = true := by
  simp only [Bool.or_eq_true, decide_eq_true_eq]
  rw [not_and_or, not_le, not_le]

/-- Claim C2: the defect count is the number of samples strictly below the
lower limit or strictly above the upper limit; a sample exactly equal to a
limit is in-spec (prepending it to the batch leaves the count unchanged); and
the defect rate is the count divided by the batch size times 100. -/
theorem defects_boundary_and_rate (parts : List ℚ) (batch_size : ℕ)
    (lower_spec upper_spec : ℚ) (h : lower_spec ≤ upper_spec) :
    defects parts lower_spec upper_spec =
      (parts.filter fun p => decide ¬(lower_spec ≤ p ∧ p ≤ upper_spec)).length ∧
    defects (lower_spec :: parts) lower_spec upper_spec = defects parts lower_spec upper_spec ∧
    defects (upper_spec :: parts) lower_spec upper_spec = defects parts lower_spec upper_spec ∧
    defect_rate parts batch_size lower_spec upper_spec =
      (defects parts lower_spec upper_spec : ℚ) / (batch_size : ℚ) * 100 := by
  refine ⟨?_, ?_, ?_, rfl⟩
  · rw [← List.countP_eq_length_filter]
    exact List.countP_congr fun p _ => defect_pred_eq_not_in_spec lower_spec upper_spec p
  · exact List.countP_cons_of_neg _ _ (by simp [not_lt.mpr h])
  · exact List.countP_cons_of_neg _ _ (by simp [not_lt.mpr h])

theorem defects_boundary_and_rate_witness :
    defects [(1:ℚ), 2, 3] 0 2 = (([(1:ℚ), 2, 3]).filter fun p => decide ¬((0:ℚ) ≤ p ∧ p ≤ 2)).length ∧
    defects ((0:ℚ) :: [(1:ℚ), 2, 3]) 0 2 = defects [(1:ℚ), 2, 3] 0 2 ∧
    defects ((2:ℚ) :: [(1:ℚ), 2, 3]) 0 2 = defects [(1:ℚ), 2, 3] 0 2 ∧
    defect_rate [(1:ℚ), 2, 3] 3 0 2 = (defects [(1:ℚ), 2, 3] 0 2 : ℚ) / (3 : ℚ) * 100 :=
  defects_boundary_and_rate [(1:ℚ), 2, 3] 3 0 2 (by norm_num)

/-- Claim C3: the defect count and the good-part count partition the batch,
`defects + good_parts = batch_size`, and both counts are non-negative. -/
theorem defects_good_partition (parts : List ℚ) (batch_size : ℕ)
    (lower_spec upper_spec : ℚ) (h : parts.length = batch_size) :
    (defects parts lower_spec upper_spec : ℤ) +
      good_parts parts batch_size lower_spec upper_spec = (batch_size : ℤ) ∧
    0 ≤ (defects parts lower_spec upper_spec : ℤ) ∧
    0 ≤ good_parts parts batch_size lower_spec upper_spec := by
  have hle : defects parts lower_spec upper_spec ≤ batch_size := by
    rw [← h]; exact List.countP_le_length _
  unfold good_parts
  refine ⟨by ring, by positivity, by omega⟩

theorem defects_good_partition_witness :
    (defects [(1:ℚ), 2, 9] 0 2 : ℤ) + good_parts [(1:ℚ), 2, 9] 3 0 2 = (3 : ℤ) ∧
    0 ≤ (defects [(1:ℚ), 2, 9] 0 2 : ℤ) ∧
    0 ≤ good_parts [(1:ℚ), 2, 9] 3 0 2 :=
  defects_good_partition [(1:ℚ), 2, 9] 3 0 2 rfl

/-- Claim C4: the capability indices are given by the stated formulas,
`cpk` is the minimum of `cpu` and `cpl`, and `cp` is non-negative whenever
the standard deviation is positive and the limits are properly ordered. -/
theorem capability_formula_spec (process_mean process_std lower_spec upper_spec : ℚ)
    (hstd : 0 < process_std) (hlim : lower_spec < upper_spec) :
    cp process_std lower_spec upper_spec = (upper_spec - lower_spec) / (6 * process_std) ∧
    cpu process_mean process_std upper_spec = (upper_spec - process_mean) / (3 * process_std) ∧
    cpl process_mean process_std lower_spec = (process_mean - lower_spec) / (3 * process_std) ∧
    cpk process_mean process_std lower_spec upper_spec =
      min (cpu process_mean process_std upper_spec) (cpl process_mean process_std lower_spec) ∧
    0 ≤ cp process_std lower_spec upper_spec := by
  refine ⟨rfl, rfl, rfl, rfl, ?_⟩
  unfold cp
  apply div_nonneg <;> linarith

theorem capability_formula_spec_witness :
    cp 1 0 1 = ((1:ℚ) - 0) / (6 * 1) ∧
    cpu 0 1 1 = ((1:ℚ) - 0) / (3 * 1) ∧
    cpl 0 1 0 = ((0:ℚ) - 0) / (3 * 1) ∧
    cpk 0 1 0 1 = min (cpu 0 1 1) (cpl 0 1 0) ∧
    0 ≤ cp 1 0 1 :=
  capability_formula_spec 0 1 0 1 (by norm_num) (by norm_num)

/-- Claim C1, counterexample: at process mean 0, standard deviation 1 and
reversed limits (lower 2, upper 1, so upper is at most lower), the code
silently computes capability indices (a negative Cp among them) and raises
nothing, rather than raising a DomainError and producing no result. -/
theorem capability_silent_on_reversed_limits :
    (1 : ℚ) ≤ 2 ∧ (0 : ℚ) < 1 ∧
    capability_indices 0 1 2 1 =
      .ok { cp := -1/6, cpu := 1/3, cpl := -2/3, cpk := -2/3 } := by
  refine ⟨by norm_num, by norm_num, ?_⟩
  simp only [capability_indices]
  norm_num [cp, cpu, cpl, cpk, cpu, cpl, min_def]

/-- Claim C1, amended: the code performs no input validation at all.  For any
standard deviation other than zero, including negative values and reversed
specification limits, the capability computation silently returns indices and
never raises a DomainError; the only failure is the ZeroDivisionError of
Python float division when the standard deviation is exactly zero. -/
theorem capability_no_validation (process_mean process_std lower_spec upper_spec : ℚ)
    (h : process_std ≠ 0) :
    capability_indices process_mean process_std lower_spec upper_spec =
      .ok { cp := cp process_std lower_spec upper_spec
            cpu := cpu process_mean process_std upper_spec
            cpl := cpl process_mean process_std lower_spec
            cpk := cpk process_mean process_std lower_spec upper_spec } ∧
    capability_indices process_mean 0 lower_spec upper_spec = .error .zeroDivisionError := by
  unfold capability_indices
  simp [h]

theorem capability_no_validation_witness :
    capability_indices 0 (-1) 2 1 =
      .ok { cp := cp (-1) 2 1, cpu := cpu 0 (-1) 1
            cpl := cpl 0 (-1) 2, cpk := cpk 0 (-1) 2 1 } ∧
    capability_indices 0 0 2 1 = .error .zeroDivisionError :=
  capability_no_validation 0 (-1) 2 1 (by norm_num)

/-- Claim C5: when the investment is positive the ROI equals
`(profit_improved - profit) / investment * 100`; when the investment is zero
the ROI is the explicit infinite marker, and in particular is not equal to any
finite numeric value (so never a numeric zero), and no error is raised (the
computation is total). -/
theorem roi_investment_spec (profit_improved_v profit_v improvement_cost : ℝ) :
    (0 < improvement_cost → roi profit_improved_v profit_v improvement_cost =
      .finite ((profit_improved_v - profit_v) / improvement_cost * 100)) ∧
    (improvement_cost = 0 → roi profit_improved_v profit_v improvement_cost = .infinite ∧
      ∀ v : ℝ, roi profit_improved_v profit_v improvement_cost ≠ .finite v) := by
  unfold roi
  constructor
  · intro h
    rw [if_pos h]
  · intro h
    subst h
    rw [if_neg (lt_irrefl 0)]
    exact ⟨rfl, fun v hv => by cases hv⟩

theorem roi_investment_spec_witness :
    roi 10 0 2 = Roi.finite (((10:ℝ) - 0) / 2 * 100) ∧
    roi 10 0 0 = Roi.infinite ∧ roi 10 0 0 ≠ Roi.finite 0 :=
  ⟨(roi_investment_spec 10 0 2).1 (by norm_num),
    ((roi_investment_spec 10 0 0).2 rfl).1,
    ((roi_investment_spec 10 0 0).2 rfl).2 0⟩

/-- Claim C8: with the improved standard deviation equal to the current one
and the centered flag off, the improved-process capability index recomputed on
line 151 equals the current `cpk` exactly, and its two arguments coincide with
the current `cpu` and `cpl`. -/
theorem cpk_improved_no_change (process_mean process_std lower_spec upper_spec
    target_dimension improved_std : ℚ) (hstd : 0 < process_std)
    (heq : improved_std = process_std) :
    cpk_improved lower_spec upper_spec
        (improved_mean target_dimension process_mean false) improved_std =
      cpk process_mean process_std lower_spec upper_spec ∧
    (upper_spec - improved_mean target_dimension process_mean false) / (3 * improved_std) =
      cpu process_mean process_std upper_spec ∧
    (improved_mean target_dimension process_mean false - lower_spec) / (3 * improved_std) =
      cpl process_mean process_std lower_spec := by
  subst heq
  exact ⟨rfl, rfl, rfl⟩

theorem cpk_improved_no_change_witness :
    cpk_improved 0 2 (improved_mean 1 (1/2) false) 1 = cpk (1/2) 1 0 2 ∧
    ((2:ℚ) - improved_mean 1 (1/2) false) / (3 * 1) = cpu (1/2) 1 2 ∧
    (improved_mean 1 ((1:ℚ)/2) false - 0) / (3 * 1) = cpl (1/2) 1 0 :=
  cpk_improved_no_change (1/2) 1 0 2 1 1 (by norm_num) rfl

/-- Claim C9: the financial quantities satisfy
`total_cost = batch_size * cost_per_unit`, `total_revenue = good_parts * revenue_per_unit`,
`profit = total_revenue - total_cost`, and the improved profit is the improved
revenue minus the current total manufacturing cost minus the investment. -/
theorem financial_formulas (parts : List ℚ) (batch_size : ℕ)
    (lower_spec upper_spec revenue_per_unit cost_per_unit : ℚ)
    (lo hi im istd rev tmc inv : ℝ) :
    total_manufacturing_cost batch_size cost_per_unit = (batch_size : ℚ) * cost_per_unit ∧
    total_revenue parts batch_size lower_spec upper_spec revenue_per_unit =
      (good_parts parts batch_size lower_spec upper_spec : ℚ) * revenue_per_unit ∧
    profit parts batch_size lower_spec upper_spec revenue_per_unit cost_per_unit =
      total_revenue parts batch_size lower_spec upper_spec revenue_per_unit -
        total_manufacturing_cost batch_size cost_per_unit ∧
    profit_improved batch_size lo hi im istd rev tmc inv =
      total_revenue_improved batch_size lo hi im istd rev - tmc - inv :=
  ⟨rfl, rfl, rfl, rfl⟩

/-- Claim C6: the improved mean is the target dimension when the centered flag
is set and the current process mean otherwise, the improved defect rate is the
analytic CDF expression, and the improved good-part count is
`batch_size * (1 - defect_rate_improved / 100)`. -/
theorem improvement_analytic_formulas (target_dimension process_mean lower_spec upper_spec
    improved_std : ℝ) (batch_size : ℕ) (centered_mean : Bool) (h : 0 < improved_std) :
    improved_mean target_dimension process_mean centered_mean =
      (if centered_mean then target_dimension else process_mean) ∧
    defect_rate_improved lower_spec upper_spec
        (improved_mean target_dimension process_mean centered_mean) improved_std =
      (1 - (normCdf ((upper_spec - improved_mean target_dimension process_mean centered_mean) /
          improved_std) -
        normCdf ((lower_spec - improved_mean target_dimension process_mean centered_mean) /
          improved_std))) * 100 ∧
    good_parts_improved batch_size lower_spec upper_spec
        (improved_mean target_dimension process_mean centered_mean) improved_std =
      (batch_size : ℝ) * (1 - defect_rate_improved lower_spec upper_spec
        (improved_mean target_dimension process_mean centered_mean) improved_std / 100) :=
  ⟨rfl, rfl, rfl⟩

theorem improvement_analytic_formulas_witness :
    improved_mean (25:ℝ) 26 true = (if true then (25:ℝ) else 26) ∧
    defect_rate_improved 24 27 (improved_mean (25:ℝ) 26 true) 1 =
      (1 - (normCdf (((27:ℝ) - improved_mean (25:ℝ) 26 true) / 1) -
        normCdf (((24:ℝ) - improved_mean (25:ℝ) 26 true) / 1))) * 100 ∧
    good_parts_improved 10 24 27 (improved_mean (25:ℝ) 26 true) 1 =
      ((10:ℕ) : ℝ) * (1 - defect_rate_improved 24 27 (improved_mean (25:ℝ) 26 true) 1 / 100) :=
  improvement_analytic_formulas 25 26 24 27 1 10 true (by norm_num)

lemma filter_three_partition_length {α : Type} (l : List α) (p q r : α → Bool)
    (h : ∀ a ∈ l,
      (p a = true ∧ q a = false ∧ r a = false) ∨
      (p a = false ∧ q a = true ∧ r a = false) ∨
      (p a = false ∧ q a = false ∧ r a = true)) :
    (l.filter p).length + (l.filter q).length + (l.filter r).length = l.length := by
  induction l with
  | nil => simp
  | cons a t ih =>
    have ht := ih fun b hb => h b (List.mem_cons_of_mem a hb)
    rcases h a (List.mem_cons_self a t) with ⟨h1, h2, h3⟩ | ⟨h1, h2, h3⟩ | ⟨h1, h2, h3⟩ <;>
      simp [List.filter_cons, h1, h2, h3] <;> omega

lemma spec_trichotomy (lower_spec upper_spec p : ℚ) (h : lower_spec ≤ upper_spec) :
    ((decide (lower_spec ≤ p) && decide (p ≤ upper_spec)) = true ∧
      decide (p < lower_spec) = false ∧ decide (upper_spec < p) = false) ∨
    ((decide (lower_spec ≤ p) && decide (p ≤ upper_spec)) = false ∧
      decide (p < lower_spec) = true ∧ decide (upper_spec < p) = false) ∨
    ((decide (lower_spec ≤ p) && decide (p ≤ upper_spec)) = false ∧
      decide (p < lower_spec) = false ∧ decide (upper_spec < p) = true) := by
  rcases lt_or_le p lower_spec with h1 | h1
  · exact Or.inr (Or.inl (by simp [h1, not_le.mpr h1, not_lt.mpr (le_of_lt (h1.trans_le h))]))
  · rcases le_or_lt p upper_spec with h2 | h2
    · exact Or.inl (by simp [h1, h2, not_lt.mpr h1, not_lt.mpr h2])
    · exact Or.inr (Or.inr (by simp [h2, not_le.mpr h2, not_lt.mpr h1]))

/-- Claim C10, amended: provided the specification limits are ordered
(`lower_spec` at most `upper_spec`, as the data model requires), the three
shaded-region subsets of the 1000 density-curve points form an exact
partition: their sizes sum to the size of the curve, every curve point lies in
exactly one of them, and a point exactly equal to a limit lies in the
within-spec subset. -/
theorem curve_partition (process_mean process_std lower_spec upper_spec : ℚ)
    (hstd : 0 < process_std) (hlim : lower_spec ≤ upper_spec) :
    (in_spec_x process_mean process_std lower_spec upper_spec).length +
        (lower_out_x process_mean process_std lower_spec).length +
        (upper_out_x process_mean process_std upper_spec).length =
      (x_curve process_mean process_std).length ∧
    (∀ p ∈ x_curve process_mean process_std,
      (p ∈ in_spec_x process_mean process_std lower_spec upper_spec ∧
        p ∉ lower_out_x process_mean process_std lower_spec ∧
        p ∉ upper_out_x process_mean process_std upper_spec) ∨
      (p ∉ in_spec_x process_mean process_std lower_spec upper_spec ∧
        p ∈ lower_out_x process_mean process_std lower_spec ∧
        p ∉ upper_out_x process_mean process_std upper_spec) ∨
      (p ∉ in_spec_x process_mean process_std lower_spec upper_spec ∧
        p ∉ lower_out_x process_mean process_std lower_spec ∧
        p ∈ upper_out_x process_mean process_std upper_spec)) ∧
    (∀ p ∈ x_curve process_mean process_std, (p = lower_spec ∨ p = upper_spec) →
      p ∈ in_spec_x process_mean process_std lower_spec upper_spec) := by
  refine ⟨?_, ?_, ?_⟩
  · exact filter_three_partition_length _ _ _ _
      fun p _ => spec_trichotomy lower_spec upper_spec p hlim
  · intro p hp
    simp only [in_spec_x, lower_out_x, upper_out_x, List.mem_filter]
    rcases spec_trichotomy lower_spec upper_spec p hlim with
      ⟨h1, h2, h3⟩ | ⟨h1, h2, h3⟩ | ⟨h1, h2, h3⟩ <;> simp [hp, h1, h2, h3]
  · intro p hp hlim2
    rcases hlim2 with rfl | rfl <;>
      simp [in_spec_x, List.mem_filter, hp, hlim, le_refl]

set_option maxRecDepth 100000 in
theorem curve_partition_witness :
    (in_spec_x 0 1 (-4) 4).length + (lower_out_x 0 1 (-4)).length +
        (upper_out_x 0 1 4).length = (x_curve 0 1).length ∧
    (((-4 : ℚ) ∈ in_spec_x 0 1 (-4) 4 ∧ (-4 : ℚ) ∉ lower_out_x 0 1 (-4) ∧
        (-4 : ℚ) ∉ upper_out_x 0 1 4) ∨
      ((-4 : ℚ) ∉ in_spec_x 0 1 (-4) 4 ∧ (-4 : ℚ) ∈ lower_out_x 0 1 (-4) ∧
        (-4 : ℚ) ∉ upper_out_x 0 1 4) ∨
      ((-4 : ℚ) ∉ in_spec_x 0 1 (-4) 4 ∧ (-4 : ℚ) ∉ lower_out_x 0 1 (-4) ∧
        (-4 : ℚ) ∈ upper_out_x 0 1 4)) ∧
    (-4 : ℚ) ∈ in_spec_x 0 1 (-4) 4 := by
  have h0 : (0 : ℕ) ∈ List.range 1000 := List.mem_range.mpr (by norm_num)
  have h2 := List.mem_map_of_mem
    (fun i : ℕ => ((0 : ℚ) - 4 * 1) +
      (i : ℚ) * (((0 : ℚ) + 4 * 1) - ((0 : ℚ) - 4 * 1)) / 999) h0
  have hmem : (-4 : ℚ) ∈ x_curve 0 1 := by
    show (-4 : ℚ) ∈ (List.range 1000).map
      (fun i : ℕ => ((0 : ℚ) - 4 * 1) +
        (i : ℚ) * (((0 : ℚ) + 4 * 1) - ((0 : ℚ) - 4 * 1)) / 999)
    convert h2 using 2 <;> push_cast <;> norm_num
  exact ⟨(curve_partition 0 1 (-4) 4 (by norm_num) (by norm_num)).1,
    (curve_partition 0 1 (-4) 4 (by norm_num) (by norm_num)).2.1 (-4) hmem,
    (curve_partition 0 1 (-4) 4 (by norm_num) (by norm_num)).2.2 (-4) hmem (Or.inl rfl)⟩

set_option maxRecDepth 100000 in
/-- Claim C10, counterexample: with process mean 14, standard deviation 1,
lower limit 20 and upper limit 10 (so the limits are reversed), the curve
point `10 + 8/999` lies in both the below-spec and the above-spec subsets and
in neither exactly one subset, so the three subsets do not partition the
curve. -/
theorem curve_double_membership_on_reversed_limits :
    (0 : ℚ) < 1 ∧
    (10 + 8/999 : ℚ) ∈ x_curve 14 1 ∧
    (10 + 8/999 : ℚ) ∈ lower_out_x 14 1 20 ∧
    (10 + 8/999 : ℚ) ∈ upper_out_x 14 1 10 ∧
    (10 + 8/999 : ℚ) ∉ in_spec_x 14 1 20 10 := by
  have h1 : (1 : ℕ) ∈ List.range 1000 := List.mem_range.mpr (by norm_num)
  have h2 := List.mem_map_of_mem
    (fun i : ℕ => ((14 : ℚ) - 4 * 1) +
      (i : ℚ) * (((14 : ℚ) + 4 * 1) - ((14 : ℚ) - 4 * 1)) / 999) h1
  have hx : (10 + 8/999 : ℚ) ∈ x_curve 14 1 := by
    show (10 + 8/999 : ℚ) ∈ (List.range 1000).map
      (fun i : ℕ => ((14 : ℚ) - 4 * 1) +
        (i : ℚ) * (((14 : ℚ) + 4 * 1) - ((14 : ℚ) - 4 * 1)) / 999)
    convert h2 using 2 <;> push_cast <;> norm_num
  refine ⟨by norm_num, hx, ?_, ?_, ?_⟩
  · exact List.mem_filter.mpr ⟨hx, by rw [decide_eq_true_eq]; norm_num⟩
  · exact List.mem_filter.mpr ⟨hx, by rw [decide_eq_true_eq]; norm_num⟩
  · intro hc
    have h4 := (List.mem_filter.mp hc).2
    simp only [Bool.and_eq_true, decide_eq_true_eq] at h4
    norm_num at h4

lemma normPdf_nonneg (x : ℝ) : 0 ≤ normPdf x := by
  unfold normPdf
  positivity

lemma normPdf_integrable : Integrable normPdf := by
  have h := (integrable_exp_neg_mul_sq (by norm_num : (0:ℝ) < 2⁻¹)).const_mul
    (Real.sqrt (2 * Real.pi))⁻¹
  have he : (fun x : ℝ => (Real.sqrt (2 * Real.pi))⁻¹ * Real.exp (-2⁻¹ * x ^ 2)) = normPdf := by
    funext x
    unfold normPdf
    have hex : -2⁻¹ * x ^ 2 = -(x ^ 2 / 2) := by ring
    rw [hex]
  rwa [he] at h

lemma normPdf_intervalIntegrable (a b : ℝ) : IntervalIntegrable normPdf volume a b :=
  normPdf_integrable.intervalIntegrable

lemma normPdf_antitone_on_nonneg (x y : ℝ) (hx : 0 ≤ x) (hxy : x ≤ y) :
    normPdf y ≤ normPdf x := by
  unfold normPdf
  have hs : (0:ℝ) ≤ (Real.sqrt (2 * Real.pi))⁻¹ := by positivity
  refine mul_le_mul_of_nonneg_left ?_ hs
  refine Real.exp_le_exp.mpr ?_
  nlinarith

lemma normCdf_sub_eq_integral (a b : ℝ) :
    normCdf b - normCdf a = ∫ x in a..b, normPdf x := by
  unfold normCdf
  exact intervalIntegral.integral_Iic_sub_Iic normPdf_integrable.integrableOn
    normPdf_integrable.integrableOn

/-- Claim C7, amended: for a fixed improved mean lying between the
specification limits, the analytic CDF-based improved defect rate is
monotonically non-decreasing in the improved standard deviation.  (For a mean
outside the limits the property fails; see the counterexample.) -/
theorem defect_rate_improved_mono (lower_spec upper_spec im s1 s2 : ℝ)
    (h1 : lower_spec ≤ im) (h2 : im ≤ upper_spec) (hs1 : 0 < s1) (hs12 : s1 ≤ s2) :
    defect_rate_improved lower_spec upper_spec im s1 ≤
      defect_rate_improved lower_spec upper_spec im s2 := by
  have hs2 : 0 < s2 := hs1.trans_le hs12
  have key : normCdf (z_upper_improved upper_spec im s2) -
      normCdf (z_lower_improved lower_spec im s2) ≤
      normCdf (z_upper_improved upper_spec im s1) -
      normCdf (z_lower_improved lower_spec im s1) := by
    rw [normCdf_sub_eq_integral, normCdf_sub_eq_integral]
    unfold z_lower_improved z_upper_improved
    refine intervalIntegral.integral_mono_interval ?_ ?_ ?_ ?_ ?_
    · rw [div_le_div_iff₀ hs1 hs2]
      nlinarith
    · rw [div_le_div_iff₀ hs2 hs2]
      nlinarith
    · rw [div_le_div_iff₀ hs2 hs1]
      nlinarith
    · filter_upwards with x using normPdf_nonneg x
    · exact normPdf_intervalIntegrable _ _
  unfold defect_rate_improved
  nlinarith [key]

theorem defect_rate_improved_mono_witness :
    defect_rate_improved 0 2 1 1 ≤ defect_rate_improved 0 2 1 2 :=
  defect_rate_improved_mono 0 2 1 1 2 (by norm_num) (by norm_num) (by norm_num) (by norm_num)

/-- Claim C7, counterexample: with lower limit 20, upper limit 30 (properly
ordered) and improved mean 10 (outside the limits), raising the improved
standard deviation from 1 to 2 strictly decreases the analytic defect rate:
at standard deviation 1 almost the whole distribution is out of spec, while
at 2 some mass moves into the band, so the rate is not monotone in the
standard deviation for every fixed mean. -/
theorem defect_rate_improved_not_monotone :
    (20:ℝ) < 30 ∧ (0:ℝ) < 1 ∧ (1:ℝ) ≤ 2 ∧
    ¬ (defect_rate_improved 20 30 10 1 ≤ defect_rate_improved 20 30 10 2) := by
  refine ⟨by norm_num, by norm_num, by norm_num, not_le.mpr ?_⟩
  have key : normCdf 20 - normCdf 10 < normCdf 10 - normCdf 5 := by
    rw [normCdf_sub_eq_integral, normCdf_sub_eq_integral]
    have hub : ∫ x in (10:ℝ)..20, normPdf x ≤ 10 * normPdf 10 := by
      have hc : ∫ _ in (10:ℝ)..20, normPdf 10 = 10 * normPdf 10 := by
        rw [intervalIntegral.integral_const]
        norm_num
      calc ∫ x in (10:ℝ)..20, normPdf x ≤ ∫ _ in (10:ℝ)..20, normPdf 10 :=
            intervalIntegral.integral_mono_on (by norm_num)
              (normPdf_intervalIntegrable _ _) intervalIntegrable_const
              (fun x hx => normPdf_antitone_on_nonneg 10 x (by norm_num) hx.1)
        _ = 10 * normPdf 10 := hc
    have hlb : normPdf 6 ≤ ∫ x in (5:ℝ)..10, normPdf x := by
      have hc6 : ∫ _ in (5:ℝ)..6, normPdf 6 = normPdf 6 := by
        rw [intervalIntegral.integral_const]
        norm_num
      calc normPdf 6 = ∫ _ in (5:ℝ)..6, normPdf 6 := hc6.symm
        _ ≤ ∫ x in (5:ℝ)..6, normPdf x :=
            intervalIntegral.integral_mono_on (by norm_num) intervalIntegrable_const
              (normPdf_intervalIntegrable _ _)
              (fun x hx => normPdf_antitone_on_nonneg x 6 (by linarith [hx.1]) hx.2)
        _ ≤ ∫ x in (5:ℝ)..10, normPdf x :=
            intervalIntegral.integral_mono_interval (le_refl 5) (by norm_num) (by norm_num)
              (by filter_upwards with x using normPdf_nonneg x)
              (normPdf_intervalIntegrable _ _)
    have hnum : 10 * normPdf 10 < normPdf 6 := by
      unfold normPdf
      have e1 : -((10:ℝ) ^ 2 / 2) = -50 := by norm_num
      have e2 : -((6:ℝ) ^ 2 / 2) = -18 := by norm_num
      rw [e1, e2]
      have hc : (0:ℝ) < (Real.sqrt (2 * Real.pi))⁻¹ := by positivity
      have hkey : (10:ℝ) * Real.exp (-(50:ℝ)) < Real.exp (-(18:ℝ)) := by
        have h32 : Real.exp (-(18:ℝ)) = Real.exp (-(50:ℝ)) * Real.exp (32:ℝ) := by
          rw [← Real.exp_add]
          norm_num
        have h33 : (33:ℝ) ≤ Real.exp (32:ℝ) := by
          have := Real.add_one_le_exp (32:ℝ)
          linarith
        have hp := Real.exp_pos (-(50:ℝ))
        rw [h32]
        nlinarith
      calc 10 * ((Real.sqrt (2 * Real.pi))⁻¹ * Real.exp (-(50:ℝ))) =
            (Real.sqrt (2 * Real.pi))⁻¹ * (10 * Real.exp (-(50:ℝ))) := by ring
        _ < (Real.sqrt (2 * Real.pi))⁻¹ * Real.exp (-(18:ℝ)) :=
            mul_lt_mul_of_pos_left hkey hc
    linarith
  have hz1 : z_lower_improved 20 10 2 = 5 := by unfold z_lower_improved; norm_num
  have hz2 : z_upper_improved 30 10 2 = 10 := by unfold z_upper_improved; norm_num
  have hz3 : z_lower_improved 20 10 1 = 10 := by unfold z_lower_improved; norm_num
  have hz4 : z_upper_improved 30 10 1 = 20 := by unfold z_upper_improved; norm_num
  unfold defect_rate_improved
  rw [hz1, hz2, hz3, hz4]
  nlinarith [key]
